import Mathlib

/-!
Shallow embedding of the receipt-points service in src/fetch-points.go.

The embedding covers the two core components: the validation performed by
processReceipts and the scoring engine calculatePoints (with its helper
countAlphanumeric).  Conventions used throughout:

* Go strings become Lean String values; all character-level work is done on
  String.data (a list of Unicode code points), mirroring how the Go code
  ranges over runes.  Length conditions in the source use the UTF-8 byte
  length; for the ASCII data handled here the code-point count coincides
  with it.
* strconv.ParseFloat on the plain decimal forms used by the service is
  modelled exactly: a parsed value is kept as an integer numerator with a
  power-of-ten denominator (structure Dec), so no binary rounding occurs.
  The exponent, hexadecimal, infinity and NaN forms that ParseFloat would
  also accept, and its overflow behaviour, are outside the model.
* Failure is explicit: parsers return Option, and calculatePoints returns
  Option Int, with none modelling the runtime panic (index out of range)
  that the source suffers on a purchase date with fewer than three
  dash-separated fields.
-/

/-- Line item of a receipt: struct Item of the source, with the field names
of the Go struct. -/
structure Item where
  ShortDescription : String
  Price : String
deriving Repr, DecidableEq

/-- Purchase record: struct Receipt of the source. -/
structure Receipt where
  Retailer : String
  Total : String
  Items : List Item
  PurchaseDate : String
  PurchaseTime : String
deriving Repr, DecidableEq

/-- Exact decimal value num / 10 ^ exp.  This is the value strconv.ParseFloat
produces for a plain decimal literal, kept exactly instead of rounded to
binary floating point. -/
structure Dec where
  num : Int
  exp : Nat
deriving Repr, DecidableEq

/-- The rational value represented by a Dec. -/
def Dec.toRat (d : Dec) : ℚ := (d.num : ℚ) / (10 : ℚ) ^ d.exp

/-- Splitting a character list on a separator, the semantics of strings.Split
in the source for a one-character separator: the empty input yields one empty
field, and every occurrence of the separator starts a new field. -/
def splitOnChar (sep : Char) : List Char → List (List Char)
  | [] => [[]]
  | c :: cs =>
    if c = sep then [] :: splitOnChar sep cs
    else
      match splitOnChar sep cs with
      | [] => [[c]]
      | g :: gs => (c :: g) :: gs

/-- Reads a digit run: some (value, digitCount) when every character is an
ASCII digit (the empty list reads as (0, 0)), none on any other character. -/
def readDigits : List Char → Option (Nat × Nat)
  | [] => some (0, 0)
  | c :: cs =>
    if c.isDigit then
      match readDigits cs with
      | some (v, k) => some ((c.toNat - 48) * 10 ^ k + v, k + 1)
      | none => none
    else none

/-- Unsigned part of strconv.ParseFloat restricted to plain decimals: digit
runs around at most one decimal point, with at least one digit in total. -/
def parseUnsignedDecimal (cs : List Char) : Option Dec :=
  match splitOnChar '.' cs with
  | [w] =>
    match readDigits w with
    | some (v, k) => if k = 0 then none else some ⟨(v : Int), 0⟩
    | none => none
  | [w, f] =>
    match readDigits w, readDigits f with
    | some (v, kw), some (fv, kf) =>
      if kw = 0 ∧ kf = 0 then none
      else some ⟨((v * 10 ^ kf + fv : Nat) : Int), kf⟩
    | _, _ => none
  | _ => none

/-- strconv.ParseFloat of the source (used on Total and on item prices),
restricted to plain decimal forms and yielding the exact value. -/
def parseDecimal (s : String) : Option Dec :=
  match s.data with
  | '-' :: rest => (parseUnsignedDecimal rest).map (fun d => ⟨-d.num, d.exp⟩)
  | '+' :: rest => parseUnsignedDecimal rest
  | cs => parseUnsignedDecimal cs

/-- strconv.Atoi of the source (used on the day and hour fields): an optional
sign followed by at least one digit.  Overflow checking is not modelled. -/
def atoi (cs : List Char) : Option Int :=
  match cs with
  | '-' :: rest =>
    (match readDigits rest with
     | some (v, k) => if k = 0 then none else some (-(v : Int))
     | none => none)
  | '+' :: rest =>
    (match readDigits rest with
     | some (v, k) => if k = 0 then none else some (v : Int)
     | none => none)
  | _ =>
    (match readDigits cs with
     | some (v, k) => if k = 0 then none else some (v : Int)
     | none => none)

/-- White space as trimmed by strings.TrimSpace (the ASCII space characters;
the rarely used further Unicode space code points are not modelled). -/
def isSpaceChar (c : Char) : Bool :=
  c = ' ' || c = '\t' || c = '\n' || c = '\x0b' || c = '\x0c' || c = '\r'

/-- Length of the description after strings.TrimSpace, as in rule 5 of the
source (len counts UTF-8 bytes there; on ASCII data this equals the
code-point count used here). -/
def trimmedLen (s : String) : Nat :=
  ((s.data.dropWhile isSpaceChar).reverse.dropWhile isSpaceChar).length

/-- Test of countAlphanumeric in the source: ASCII letter or digit. -/
def isAlphanumericChar (c : Char) : Bool :=
  ('a' ≤ c && c ≤ 'z') || ('A' ≤ c && c ≤ 'Z') || ('0' ≤ c && c ≤ '9')

/-- countAlphanumeric of the source: one count per alphanumeric rune. -/
def countAlphanumeric (s : String) : Nat :=
  (s.data.filter isAlphanumericChar).length

/-- Ceiling of the integer fraction a / b for positive b, written with
Euclidean division; this is the exact value of int(math.Ceil(a / b)). -/
def ceilIntDiv (a b : Int) : Int := (a + b - 1) / b

/-- Rule 2 of calculatePoints: 50 points when ParseFloat succeeded and the
total equals float64(int(total)), that is, when the total is an integer.
A value num / 10 ^ exp is an integer exactly when 10 ^ exp divides num. -/
def rule2points (parsedTotal : Option Dec) : Int :=
  match parsedTotal with
  | some t => if t.num % (10 : Int) ^ t.exp = 0 then 50 else 0
  | none => 0

/-- Rule 3 of calculatePoints: 25 points when math.Mod(total * 100, 25) == 0,
where total is 0 when ParseFloat failed (the source does not re-check err
here).  Exactly: total * 100 / 25 = 4 * num / 10 ^ exp must be an integer. -/
def rule3points (parsedTotal : Option Dec) : Int :=
  let t := parsedTotal.getD ⟨0, 0⟩
  if (4 * t.num) % (10 : Int) ^ t.exp = 0 then 25 else 0

/-- Rule 5 body of calculatePoints for one item: when the trimmed description
length is a multiple of 3 and the price parses, add
int(math.Ceil(price * 0.2)) = the ceiling of num / (5 * 10 ^ exp). -/
def rule5points (it : Item) : Int :=
  if trimmedLen it.ShortDescription % 3 = 0 then
    match parseDecimal it.Price with
    | some price => ceilIntDiv price.num (5 * (10 : Int) ^ price.exp)
    | none => 0
  else 0

/-- calculatePoints of the source.  The contributions are accumulated in the
order of the source; rule 4 resets the running total to 0 on an empty item
list before rules 5 to 7 run.  The result is none when the source would
panic: rule 6 indexes field 2 of the dash-split purchase date without a
bounds check. -/
def calculatePoints (receipt : Receipt) : Option Int :=
  let p1 : Int := countAlphanumeric receipt.Retailer
  let parsedTotal := parseDecimal receipt.Total
  let p2 : Int := rule2points parsedTotal
  let p3 : Int := rule3points parsedTotal
  let pairPoints : Nat := receipt.Items.length / 2 * 5
  let afterRule4 : Int :=
    if 0 < receipt.Items.length then p1 + p2 + p3 + pairPoints else 0
  let p5 : Int := (receipt.Items.map rule5points).sum
  match (splitOnChar '-' receipt.PurchaseDate.data)[2]? with
  | none => none
  | some dayField =>
    let p6 : Int :=
      match atoi dayField with
      | some day => if day % 2 ≠ 0 then 6 else 0
      | none => 0
    let p7 : Int :=
      match atoi ((splitOnChar ':' receipt.PurchaseTime.data).headD []) with
      | some hour => if 14 ≤ hour ∧ hour < 16 then 10 else 0
      | none => 0
    some (afterRule4 + p5 + p6 + p7)

/-- Per-item validation loop of processReceipts, in sequence order. -/
def validateItems : List Item → Option String
  | [] => none
  | it :: rest =>
    if it.ShortDescription = "" then some "Item short description is required"
    else if (parseDecimal it.Price).isNone then some "Invalid item price"
    else validateItems rest

/-- Validation phase of processReceipts: the first failing check produces its
reason, none means the receipt is accepted.  The checks appear in source
order; note that ParseFloat succeeding is the whole numeric check, with no
sign condition. -/
def validateReceipt (receipt : Receipt) : Option String :=
  if receipt.Retailer = "" then some "Retailer name is required"
  else if receipt.Total = "" then some "Total amount is required"
  else if (parseDecimal receipt.Total).isNone then some "Invalid total amount"
  else if receipt.PurchaseDate = "" then some "Purchase date is required"
  else if receipt.PurchaseTime = "" then some "Purchase time is required"
  else if receipt.Items.length = 0 then some "Receipt should have at least one item"
  else validateItems receipt.Items

/-- The receipt processReceipts hands to calculatePoints after validation.
In the source the loop writes the two-decimal formatting to the range
variable item, which is a copy of the list element, so the receipt itself is
passed on unchanged. -/
def receiptAfterValidation (receipt : Receipt) : Receipt := receipt

/-- Modelled from the spec: a price text is in normalized form when it has
exactly two fractional digits after the decimal point. -/
def hasTwoFractionalDigits (s : String) : Bool :=
  match splitOnChar '.' s.data with
  | [_, f] => f.length == 2
  | _ => false

/-- The eight reason strings of the validation contract. -/
def validationReasons : List String :=
  ["Retailer name is required", "Total amount is required", "Invalid total amount",
   "Purchase date is required", "Purchase time is required",
   "Receipt should have at least one item", "Item short description is required",
   "Invalid item price"]

/-- First failing check of an ordered check list: the spec formulation of
short-circuit validation. -/
def firstFailure : List (Bool × String) → Option String
  | [] => none
  | (failed, reason) :: rest => if failed then some reason else firstFailure rest

/-- Modelled from the spec: the per-item checks, two per item in sequence
order. -/
def specItemChecks : List Item → List (Bool × String)
  | [] => []
  | it :: rest =>
    (it.ShortDescription == "", "Item short description is required") ::
    ((parseDecimal it.Price).isNone, "Invalid item price") :: specItemChecks rest

/-- Modelled from the spec: the ordered list of validation checks of section
4.1, each paired with its reason string. -/
def specChecks (r : Receipt) : List (Bool × String) :=
  [(r.Retailer == "", "Retailer name is required"),
   (r.Total == "", "Total amount is required"),
   ((parseDecimal r.Total).isNone, "Invalid total amount"),
   (r.PurchaseDate == "", "Purchase date is required"),
   (r.PurchaseTime == "", "Purchase time is required"),
   (r.Items.length == 0, "Receipt should have at least one item")]
  ++ specItemChecks r.Items

/-! Helper lemmas. -/

/-- ceilIntDiv is the rational ceiling of a / b when b is positive. -/
theorem ceilIntDiv_eq_ceil (a b : Int) (hb : 0 < b) :
    ceilIntDiv a b = ⌈(a : ℚ) / (b : ℚ)⌉ := by
  symm
  rw [Int.ceil_eq_iff]
  have hbq : (0 : ℚ) < (b : ℚ) := by exact_mod_cast hb
  have h1 : ceilIntDiv a b * b ≤ a + b - 1 := Int.ediv_mul_le _ hb.ne'
  have h2 : a + b - 1 < (ceilIntDiv a b + 1) * b := Int.lt_ediv_add_one_mul_self _ hb
  constructor
  · rw [lt_div_iff₀ hbq]
    have h3 : (ceilIntDiv a b - 1) * b < a := by nlinarith
    exact_mod_cast h3
  · rw [div_le_iff₀ hbq]
    have h3 : a ≤ ceilIntDiv a b * b := by nlinarith
    exact_mod_cast h3

/-- Claim C1, counterexample: a record with an empty item sequence does not always
score 0: with purchase date 2022-01-01 (odd day) the engine returns 6, because the
rule 4 reset happens before rules 6 and 7 add their bonuses. -/
theorem emptyItems_score_not_always_zero :
    calculatePoints ⟨"Target", "35.35", [], "2022-01-01", "13:01"⟩ = some 6 := by decide

/-- Claim C1 (amended): a record with an empty item sequence scores 0 from the
retailer-name, round-dollar, quarter-multiple and item-pair rules: its score does
not depend on the retailer or the total at all; only the odd-day and afternoon
rules, which run after the rule 4 reset, can still contribute. -/
theorem emptyItems_ignore_retailer_total (r : Receipt) (s t : String) (h : r.Items = []) :
    calculatePoints { r with Retailer := s, Total := t } = calculatePoints r := by
  obtain ⟨R, T, I, D, Tm⟩ := r
  simp only at h
  subst h
  simp [calculatePoints]

/-- Claim C1: witness for the amended theorem at a concrete empty-item record. -/
theorem emptyItems_ignore_retailer_total_witness :
    calculatePoints ⟨"Target", "35.35", [], "2022-01-01", "13:01"⟩ =
      calculatePoints ⟨"", "", [], "2022-01-01", "13:01"⟩ :=
  emptyItems_ignore_retailer_total ⟨"", "", [], "2022-01-01", "13:01"⟩ "Target" "35.35" rfl

/-- Claim C2: a purchase date with fewer than three dash-separated fields, such as
2022-01, makes calculatePoints index out of range (modelled as none): the source
panics instead of letting rule 6 contribute 0 and returning the other rules. -/
theorem malformed_date_panics :
    calculatePoints ⟨"Target", "35.35", [⟨"Gatorade", "2.25"⟩], "2022-01", "13:01"⟩ = none := by
  decide

/-- Claim C5: the price normalization never reaches the scoring engine: the source
writes the two-decimal formatting to the loop copy of each item, so this accepted
record arrives at calculatePoints with its price text still 6.5, not 6.50. -/
theorem price_normalization_lost :
    validateReceipt ⟨"Target", "6.50", [⟨"Gatorade", "6.5"⟩], "2022-01-01", "13:01"⟩ = none ∧
    ((receiptAfterValidation
        ⟨"Target", "6.50", [⟨"Gatorade", "6.5"⟩], "2022-01-01", "13:01"⟩).Items.map
      (fun it => hasTwoFractionalDigits it.Price)) = [false] :=
  ⟨by decide, by decide⟩

/-- Claim C6, counterexample: an all-whitespace description has trimmed length 0 and
does trigger rule 5 (the source checks only divisibility by 3): this record scores
2 = ceil(6.49 * 0.2), where the claim predicts no rule 5 contribution and score 0. -/
theorem whitespace_description_still_scores :
    calculatePoints ⟨"&", "0.10", [⟨"   ", "6.49"⟩], "2022-01-02", "13:01"⟩ = some 2 := by
  decide

/-- Claim C6 (amended): rule 5 awards the ceiling of price * 0.2 whenever the trimmed
description length is divisible by 3, the all-whitespace case (length 0) included. -/
theorem rule5_divisible_length (it : Item) (d : Dec) (hp : parseDecimal it.Price = some d) :
    rule5points it =
      if trimmedLen it.ShortDescription % 3 = 0 then ⌈d.toRat * (0.2 : ℚ)⌉ else 0 := by
  unfold rule5points
  rw [hp]
  split
  · show ceilIntDiv d.num (5 * (10 : Int) ^ d.exp) = ⌈d.toRat * (0.2 : ℚ)⌉
    have hb : (0 : Int) < 5 * (10 : Int) ^ d.exp := by positivity
    rw [ceilIntDiv_eq_ceil _ _ hb]
    congr 1
    rw [Dec.toRat]
    have h10 : ((10 : ℚ)) ^ d.exp ≠ 0 := by positivity
    push_cast
    rw [show (0.2 : ℚ) = 1 / 5 by norm_num]
    field_simp
    exact Or.inl (by ring)
  · rfl

/-- Claim C6: witness for the amended theorem at the all-whitespace item. -/
theorem rule5_divisible_length_witness :
    rule5points ⟨"   ", "6.49"⟩ =
      if trimmedLen "   " % 3 = 0 then ⌈(Dec.mk 649 2).toRat * (0.2 : ℚ)⌉ else 0 :=
  rule5_divisible_length ⟨"   ", "6.49"⟩ ⟨649, 2⟩ (by decide)

/-- Claim C7: the end-to-end Target example of the spec scores exactly 28. -/
theorem target_example_scores_28 :
    calculatePoints ⟨"Target", "35.35",
      [⟨"Mountain Dew 12PK", "6.49"⟩, ⟨"Emils Cheese Pizza", "12.25"⟩,
       ⟨"Knorr Creamy Chicken", "1.26"⟩, ⟨"Doritos Nacho Cheese", "3.35"⟩,
       ⟨"Klarbrunn 12-PK 12 FL OZ", "12.00"⟩],
      "2022-01-01", "13:01"⟩ = some 28 := by decide

/-- Rule 2 never contributes a negative amount. -/
theorem rule2points_nonneg (p : Option Dec) : 0 ≤ rule2points p := by
  cases p with
  | none => exact le_refl 0
  | some t =>
    simp only [rule2points]
    split <;> norm_num

/-- Rule 3 never contributes a negative amount. -/
theorem rule3points_nonneg (p : Option Dec) : 0 ≤ rule3points p := by
  simp only [rule3points]
  split <;> norm_num

/-- The integer ceiling of a non-negative fraction is non-negative. -/
theorem ceilIntDiv_nonneg (a b : Int) (ha : 0 ≤ a) (hb : 0 < b) : 0 ≤ ceilIntDiv a b :=
  Int.ediv_nonneg (by omega) (by omega)

/-- Rule 5 is non-negative for an item whose price does not parse to a negative
value. -/
theorem rule5points_nonneg (it : Item)
    (h : 0 ≤ ((parseDecimal it.Price).getD ⟨0, 0⟩).num) : 0 ≤ rule5points it := by
  unfold rule5points
  split
  · cases hp : parseDecimal it.Price with
    | none => exact le_refl 0
    | some d =>
      rw [hp, Option.getD_some] at h
      exact ceilIntDiv_nonneg _ _ h (by positivity)
  · exact le_refl 0

/-- Claim C3, counterexample: this record passes validation (ParseFloat accepts the
negative item price, there is no sign check) yet calculatePoints returns -200,
because rule 5 adds ceil(-1000 * 0.2); the claimed non-negativity fails. -/
theorem validated_negative_score :
    validateReceipt ⟨"&", "0.10", [⟨"abc", "-1000.00"⟩], "2022-01-02", "13:01"⟩ = none ∧
    calculatePoints ⟨"&", "0.10", [⟨"abc", "-1000.00"⟩], "2022-01-02", "13:01"⟩ =
      some (-200) :=
  ⟨by decide, by decide⟩

/-- Claim C3 (amended): a record accepted by the validator whose purchase date has at
least three dash-separated fields (so the engine does not panic) and whose item
prices all parse to non-negative values receives a non-negative score. -/
theorem validated_score_nonneg (r : Receipt)
    (_hv : validateReceipt r = none)
    (hdate : 3 ≤ (splitOnChar '-' r.PurchaseDate.data).length)
    (hprices : ∀ it ∈ r.Items, 0 ≤ ((parseDecimal it.Price).getD ⟨0, 0⟩).num) :
    ∃ k, calculatePoints r = some k ∧ 0 ≤ k := by
  have h2 : 2 < (splitOnChar '-' r.PurchaseDate.data).length := by omega
  obtain ⟨d, hd⟩ : ∃ d, (splitOnChar '-' r.PurchaseDate.data)[2]? = some d :=
    ⟨_, List.getElem?_eq_getElem h2⟩
  simp only [calculatePoints, hd]
  refine ⟨_, rfl, ?_⟩
  have h4 : (0 : Int) ≤
      (if 0 < r.Items.length then
        (countAlphanumeric r.Retailer : Int) + rule2points (parseDecimal r.Total) +
          rule3points (parseDecimal r.Total) + (r.Items.length / 2 * 5 : Nat)
       else 0) := by
    split
    · have := rule2points_nonneg (parseDecimal r.Total)
      have := rule3points_nonneg (parseDecimal r.Total)
      have := Int.ofNat_nonneg (countAlphanumeric r.Retailer)
      have := Int.ofNat_nonneg (r.Items.length / 2 * 5)
      omega
    · exact le_refl 0
  have h5 : (0 : Int) ≤ (r.Items.map rule5points).sum := by
    refine List.sum_nonneg ?_
    intro x hx
    obtain ⟨it, hit, rfl⟩ := List.mem_map.mp hx
    exact rule5points_nonneg it (hprices it hit)
  have h6 : (0 : Int) ≤
      (match atoi d with
       | some day => if day % 2 ≠ 0 then 6 else 0
       | none => 0) := by
    cases atoi d with
    | none => exact le_refl 0
    | some day =>
      simp only []
      split <;> norm_num
  have h7 : (0 : Int) ≤
      (match atoi ((splitOnChar ':' r.PurchaseTime.data).headD []) with
       | some hour => if 14 ≤ hour ∧ hour < 16 then 10 else 0
       | none => 0) := by
    cases atoi ((splitOnChar ':' r.PurchaseTime.data).headD []) with
    | none => exact le_refl 0
    | some hour =>
      simp only []
      split <;> norm_num
  omega

/-- Claim C3: witness for the amended theorem at a concrete validated record. -/
theorem validated_score_nonneg_witness :
    ∃ k, calculatePoints ⟨"Target", "35.35", [⟨"Gatorade", "2.25"⟩], "2022-01-01", "13:01"⟩ =
      some k ∧ 0 ≤ k :=
  validated_score_nonneg ⟨"Target", "35.35", [⟨"Gatorade", "2.25"⟩], "2022-01-01", "13:01"⟩
    (by decide) (by decide) (by decide)

/-- Any reason produced by the per-item loop is one of its two strings. -/
theorem validateItems_reason (l : List Item) (msg : String)
    (h : validateItems l = some msg) :
    msg = "Item short description is required" ∨ msg = "Invalid item price" := by
  induction l with
  | nil => simp [validateItems] at h
  | cons it rest ih =>
    simp only [validateItems] at h
    split at h
    · exact Or.inl (Option.some.inj h).symm
    · split at h
      · exact Or.inr (Option.some.inj h).symm
      · exact ih h

/-- When every price parses, the per-item loop never reports a bad price. -/
theorem validateItems_no_price_reason (l : List Item)
    (h : ∀ it ∈ l, (parseDecimal it.Price).isSome) :
    validateItems l ≠ some "Invalid item price" := by
  induction l with
  | nil => simp [validateItems]
  | cons it rest ih =>
    simp only [validateItems]
    split
    · intro hc
      exact absurd (Option.some.inj hc) (by decide)
    · split
      · rename_i hnone
        have hs := h it (by simp)
        rw [Option.isNone_iff_eq_none.mp hnone] at hs
        simp at hs
      · exact ih (fun x hx => h x (List.mem_cons_of_mem _ hx))

/-- Claim C4, counterexample: a record whose total parses to the negative value
-5.00 passes validation, and so does one with the negative item price -2.00; the
claimed rejections with Invalid total amount and Invalid item price never happen,
since the source only checks that ParseFloat succeeds. -/
theorem negative_values_pass_validation :
    validateReceipt ⟨"Target", "-5.00", [⟨"Gatorade", "2.25"⟩], "2022-01-01", "13:01"⟩ = none ∧
    validateReceipt ⟨"Target", "5.00", [⟨"Gatorade", "-2.00"⟩], "2022-01-01", "13:01"⟩ = none :=
  ⟨by decide, by decide⟩

/-- Claim C4 (amended): the reason Invalid total amount arises only when the total
fails to parse, and Invalid item price only when some item price fails to parse:
any value ParseFloat accepts, negative ones included, clears these two checks. -/
theorem parse_success_clears_numeric_checks (r : Receipt) :
    ((parseDecimal r.Total).isSome → validateReceipt r ≠ some "Invalid total amount") ∧
    ((∀ it ∈ r.Items, (parseDecimal it.Price).isSome) →
      validateReceipt r ≠ some "Invalid item price") := by
  constructor
  · intro hs
    unfold validateReceipt
    split
    · intro hc; exact absurd (Option.some.inj hc) (by decide)
    · split
      · intro hc; exact absurd (Option.some.inj hc) (by decide)
      · split
        · rename_i hnone
          rw [Option.isNone_iff_eq_none.mp hnone] at hs
          simp at hs
        · split
          · intro hc; exact absurd (Option.some.inj hc) (by decide)
          · split
            · intro hc; exact absurd (Option.some.inj hc) (by decide)
            · split
              · intro hc; exact absurd (Option.some.inj hc) (by decide)
              · intro hc
                rcases validateItems_reason _ _ hc with h | h <;> exact absurd h (by decide)
  · intro hall
    unfold validateReceipt
    split
    · intro hc; exact absurd (Option.some.inj hc) (by decide)
    · split
      · intro hc; exact absurd (Option.some.inj hc) (by decide)
      · split
        · intro hc; exact absurd (Option.some.inj hc) (by decide)
        · split
          · intro hc; exact absurd (Option.some.inj hc) (by decide)
          · split
            · intro hc; exact absurd (Option.some.inj hc) (by decide)
            · split
              · intro hc; exact absurd (Option.some.inj hc) (by decide)
              · exact validateItems_no_price_reason _ hall

/-- Claim C4: witness for the amended theorem: the record with negative total and
negative price triggers neither numeric rejection. -/
theorem parse_success_clears_numeric_checks_witness :
    (validateReceipt ⟨"Target", "-5.00", [⟨"Gatorade", "-2.00"⟩], "2022-01-01", "13:01"⟩ ≠
      some "Invalid total amount") ∧
    (validateReceipt ⟨"Target", "-5.00", [⟨"Gatorade", "-2.00"⟩], "2022-01-01", "13:01"⟩ ≠
      some "Invalid item price") :=
  ⟨(parse_success_clears_numeric_checks
      ⟨"Target", "-5.00", [⟨"Gatorade", "-2.00"⟩], "2022-01-01", "13:01"⟩).1 (by decide),
   (parse_success_clears_numeric_checks
      ⟨"Target", "-5.00", [⟨"Gatorade", "-2.00"⟩], "2022-01-01", "13:01"⟩).2 (by decide)⟩

/-- The per-item loop of the source computes the first failure of the ordered
per-item spec checks. -/
theorem validateItems_eq_firstFailure (l : List Item) :
    validateItems l = firstFailure (specItemChecks l) := by
  induction l with
  | nil => rfl
  | cons it rest ih =>
    simp only [validateItems, specItemChecks, firstFailure]
    by_cases h1 : it.ShortDescription = ""
    · simp [h1]
    · by_cases h2 : (parseDecimal it.Price).isNone
      · simp [h1, h2]
      · simp [h1, h2, ih]

/-- Claim C8: validation applies its checks in the stated order and short-circuits on
the first failure (validateReceipt equals the first failing entry of the ordered
check list written from the spec), and every rejection reason is one of the eight
fixed strings. -/
theorem validation_order_and_reasons (r : Receipt) :
    validateReceipt r = firstFailure (specChecks r) ∧
    (∀ msg, validateReceipt r = some msg → msg ∈ validationReasons) := by
  constructor
  · unfold validateReceipt specChecks
    simp only [List.cons_append, List.nil_append, firstFailure]
    by_cases h1 : r.Retailer = ""
    · simp [h1]
    · by_cases h2 : r.Total = ""
      · simp [h1, h2]
      · by_cases h3 : (parseDecimal r.Total).isNone
        · simp [h1, h2, h3]
        · by_cases h4 : r.PurchaseDate = ""
          · simp [h1, h2, h3, h4]
          · by_cases h5 : r.PurchaseTime = ""
            · simp [h1, h2, h3, h4, h5]
            · by_cases h6 : r.Items.length = 0
              · simp [h1, h2, h3, h4, h5, h6]
              · simp [h1, h2, h3, h4, h5, h6, validateItems_eq_firstFailure]
  · intro msg hmsg
    unfold validateReceipt at hmsg
    split at hmsg
    · rw [← Option.some.inj hmsg]; decide
    · split at hmsg
      · rw [← Option.some.inj hmsg]; decide
      · split at hmsg
        · rw [← Option.some.inj hmsg]; decide
        · split at hmsg
          · rw [← Option.some.inj hmsg]; decide
          · split at hmsg
            · rw [← Option.some.inj hmsg]; decide
            · split at hmsg
              · rw [← Option.some.inj hmsg]; decide
              · rcases validateItems_reason _ _ hmsg with h | h <;> rw [h] <;> decide

/-- Claim C8: witness: an empty retailer is rejected first with a contract reason. -/
theorem validation_order_and_reasons_witness :
    validateReceipt ⟨"", "35.35", [], "2022-01-01", "13:01"⟩ =
      firstFailure (specChecks ⟨"", "35.35", [], "2022-01-01", "13:01"⟩) ∧
    "Retailer name is required" ∈ validationReasons :=
  ⟨(validation_order_and_reasons ⟨"", "35.35", [], "2022-01-01", "13:01"⟩).1,
   (validation_order_and_reasons ⟨"", "35.35", [], "2022-01-01", "13:01"⟩).2
     "Retailer name is required" (by decide)⟩

/-- Claim C10: when the total does not parse, ParseFloat leaves it 0, so rule 2
contributes nothing (its error guard fails) while rule 3, which does not re-check
the error, still adds 25 because math.Mod(0, 25) = 0; observably the record scores
exactly as if its total were the non-round quarter multiple 0.25. -/
theorem unparsable_total_still_quarter_bonus (r : Receipt)
    (h : parseDecimal r.Total = none) :
    rule2points (parseDecimal r.Total) = 0 ∧
    rule3points (parseDecimal r.Total) = 25 ∧
    calculatePoints r = calculatePoints { r with Total := "0.25" } := by
  refine ⟨by rw [h]; rfl, by rw [h]; decide, ?_⟩
  obtain ⟨R, T, I, D, Tm⟩ := r
  simp only at h
  have hp : parseDecimal "0.25" = some ⟨25, 2⟩ := by decide
  have e1 : rule2points none = 0 := rfl
  have e2 : rule2points (some ⟨25, 2⟩) = 0 := by decide
  have e3 : rule3points none = rule3points (some ⟨25, 2⟩) := by decide
  simp only [calculatePoints, h, hp, e1, e2, e3]

/-- Claim C10: witness at the unparsable total abc. -/
theorem unparsable_total_still_quarter_bonus_witness :
    rule2points (parseDecimal "abc") = 0 ∧
    rule3points (parseDecimal "abc") = 25 ∧
    calculatePoints ⟨"Target", "abc", [⟨"Gatorade", "2.25"⟩], "2022-01-01", "13:01"⟩ =
      calculatePoints ⟨"Target", "0.25", [⟨"Gatorade", "2.25"⟩], "2022-01-01", "13:01"⟩ :=
  unparsable_total_still_quarter_bonus
    ⟨"Target", "abc", [⟨"Gatorade", "2.25"⟩], "2022-01-01", "13:01"⟩ (by decide)
